import Mathlib

/-!
Shallow embedding of `insiders.py` (sponsorship-driven team-membership
reconciliation) and verification of its specification claims.

Network I/O is modelled by passing the data that the HTTP layer would
return (pages of member logins, GraphQL sponsorship nodes, per-handle
mutation responses) as explicit arguments; everything else follows the
Python source line by line.
-/

namespace Insiders

/-- Mirrors the `Account` dataclass: identity of a sponsor entity.
`org` is the flag computed from the GraphQL `__typename` discriminator. -/
structure Account where
  name : String
  image : String
  url : String
  org : Bool
deriving DecidableEq

/-- Mirrors the `Sponsor` dataclass.  `created` keeps the raw timestamp
string (the parsed datetime is never consulted by any logic).
`isPrivate` stands for the Python field `private` (a Lean keyword). -/
structure Sponsor where
  account : Account
  isPrivate : Bool
  created : String
  amount : Nat
deriving DecidableEq

/-- Mirrors module constant `MIN_AMOUNT = 4`. -/
def MIN_AMOUNT : Nat := 4

/-- One node of the GraphQL `sponsorshipsAsMaintainer` response, with the
fields the source consumes (`sponsorEntity` fields inlined). -/
structure SponsorNode where
  createdAt : String
  isOneTimePayment : Bool
  privacyLevel : String
  login : String
  avatarUrl : String
  url : String
  typename : String
  monthlyPriceInDollars : Nat
deriving DecidableEq

/-- Per-item body of the loop in `get_sponsors` (lines 103-123): a node
flagged `isOneTimePayment` is skipped (`continue`); otherwise an
`Account` and a `Sponsor` are built from its fields. -/
def processNode (item : SponsorNode) : Option Sponsor :=
  if item.isOneTimePayment then none
  else some
    { account :=
        { name := item.login
          image := item.avatarUrl
          url := item.url
          org := item.typename.toLower == "organization" }
      isPrivate := item.privacyLevel.toLower == "private"
      created := item.createdAt
      amount := item.monthlyPriceInDollars }

/-- The sponsor list built by `get_sponsors` from the concatenation of
all GraphQL pages' node lists (appending across the cursor loop). -/
def sponsors_of (nodes : List SponsorNode) : List Sponsor :=
  nodes.filterMap processNode

/-- Mirrors `get_sponsors` with the paginated API's pages supplied as
data: the cursor loop appends every page's processed nodes in order. -/
def get_sponsors (pages : List (List SponsorNode)) : List Sponsor :=
  sponsors_of pages.flatten

/-- The page loop of `get_members` (lines 135-148).  `pages` holds what
the server returns for page 1, 2, ...; a fetch past the supplied pages
returns the empty page.  The result is the pair of the accumulated
`members` set and the body of the last response fetched: the loop unions
every page into `members` and stops at the first page shorter than 100. -/
def get_members_aux : List (List String) → Finset String → Finset String × List String
  | [], acc => (acc, [])
  | p :: rest, acc =>
      let acc2 := acc ∪ p.toFinset
      if p.length < 100 then (acc2, p) else get_members_aux rest acc2

/-- Mirrors the return value of `get_members` (line 149): the function
returns `{user["login"] for user in response.json()}` where `response`
is the LAST response fetched, discarding the accumulated `members` set. -/
def get_members (pages : List (List String)) : Finset String :=
  (get_members_aux pages ∅).2.toFinset

/-- The `members` accumulator of `get_members` just before the return
statement: the union of the member handles of all pages fetched.  This
is also exactly what the spec says `getMembers` returns. -/
def members_accum (pages : List (List String)) : Finset String :=
  (get_members_aux pages ∅).1

/-- Mirrors `ORG_USERS.get(org, set())` with the org-to-members mapping
supplied as an association list: absent orgs yield the empty set. -/
def orgGet (orgUsers : List (String × Finset String)) (org : String) : Finset String :=
  ((orgUsers.lookup org).getD ∅)

/-- Line 199: handles of organization sponsors meeting the threshold (a
Python set comprehension; modelled as the deduplicated name list). -/
def eligibleOrgNames (sponsors : List Sponsor) (minAmount : Nat) : List String :=
  (((sponsors.filter fun s => s.account.org && decide (minAmount ≤ s.amount)).map
      fun s => s.account.name).dedup)

/-- Line 200: handles of individual (non-org) sponsors meeting the
threshold. -/
def eligibleUserNames (sponsors : List Sponsor) (minAmount : Nat) : Finset String :=
  ((sponsors.filter fun s => !s.account.org && decide (minAmount ≤ s.amount)).map
      fun s => s.account.name).toFinset

/-- Lines 199-203 of `main`: the eligibility computation.  `privileged`
and `orgUsers` stand for the configuration constants `PRIVILEGED_USERS`
and `ORG_USERS`.  The set starts from eligible individuals, is unioned
with the privileged set, then, for each eligible org, with that org's
expansion set. -/
def computeEligibility (sponsors : List Sponsor) (minAmount : Nat)
    (privileged : Finset String) (orgUsers : List (String × Finset String)) : Finset String :=
  (eligibleOrgNames sponsors minAmount).foldl
    (fun acc o => acc ∪ orgGet orgUsers o)
    (eligibleUserNames sponsors minAmount ∪ privileged)

/-- Revoke loop of `main` (lines 208-210): the set of handles a revoke
call is issued for — member handles not in the eligibility set.  Python
iterates the set in unspecified order, issuing one call per handle, so
the set of calls is the faithful model. -/
def revokeCalls (members eligible : Finset String) : Finset String :=
  members.filter fun user => user ∉ eligible

/-- Grant loop of `main` (lines 212-214): the set of handles a grant
call is issued for — eligible handles not in the membership set. -/
def grantCalls (members eligible : Finset String) : Finset String :=
  eligible.filter fun user => user ∉ members

/-- One group target's reconciliation in `main` (lines 205-214): the
membership snapshot is `get_members ∪ get_invited` (the invitation
listing supplied as `invited`), and the result is the pair of the
revoke-call and grant-call handle lists. -/
def run_target (sponsors : List Sponsor) (minAmount : Nat)
    (privileged : Finset String) (orgUsers : List (String × Finset String))
    (memberPages : List (List String)) (invited : Finset String) :
    Finset String × Finset String :=
  let eligible_users := computeEligibility sponsors minAmount privileged orgUsers
  let members := get_members memberPages ∪ invited
  (revokeCalls members eligible_users, grantCalls members eligible_users)

/-- Line 216: `total = sum(sponsor.amount for sponsor in sponsors)`. -/
def totalAmount (sponsors : List Sponsor) : Nat :=
  (sponsors.map Sponsor.amount).sum

/-- Line 217: `count = len(sponsors)`. -/
def sponsorCount (sponsors : List Sponsor) : Nat :=
  sponsors.length

/-- Line 221: the public roster — accounts of the non-private sponsors,
in list order. -/
def roster (sponsors : List Sponsor) : List Account :=
  (sponsors.filter fun s => !s.isPrivate).map Sponsor.account

/-- The provider error body consulted on a failed mutation:
`response_body["message"]` and `response_body["documentation_url"]`. -/
structure ResponseBody where
  message : String
  documentation_url : String
deriving DecidableEq

/-- A mutation (PUT/DELETE membership) response: HTTP status plus the
parsed body when `response.content` is non-empty. -/
structure MutationResponse where
  status : Nat
  body : Option ResponseBody
deriving DecidableEq

/-- Success predicate of `response.raise_for_status()`: a 2xx status
does not raise; anything else raises `httpx.HTTPError`, which `grant`
and `revoke` catch. -/
def is_success (status : Nat) : Bool :=
  200 ≤ status && status < 300

/-- Mirrors `grant` (lines 162-176): the list of diagnostic lines
printed for one grant call.  The caught `HTTPError` is handled entirely
inside the function (the Lean model is total — no failure escapes), and
on failure with a body the provider message and documentation link are
printed.  The interpolated `{error}` detail of the first failure line is
abbreviated away; contractions in the source text are spelled out. -/
def grant (user org team : String) (response : MutationResponse) : List String :=
  if is_success response.status then
    ["@" ++ user ++ " added to " ++ org ++ "/" ++ team ++ " team"]
  else
    ("Could not add @" ++ user ++ " to " ++ org ++ "/" ++ team ++ " team") ::
      (match response.body with
       | some body => [body.message ++ " See " ++ body.documentation_url]
       | none => [])

/-- Mirrors `revoke` (lines 179-193), same shape as `grant`. -/
def revoke (user org team : String) (response : MutationResponse) : List String :=
  if is_success response.status then
    ["@" ++ user ++ " removed from " ++ org ++ "/" ++ team ++ " team"]
  else
    ("Could not remove @" ++ user ++ " from " ++ org ++ "/" ++ team ++ " team") ::
      (match response.body with
       | some body => [body.message ++ " See " ++ body.documentation_url]
       | none => [])

/-- The grant loop of `main` applied to one enumeration of the grant
set (Python iterates the set in unspecified order), with the per-handle
responses supplied as data: each handle is paired with the lines its
grant call prints. -/
def applyGrants (users : List String) (resp : String → MutationResponse)
    (org team : String) : List (String × List String) :=
  users.map fun u => (u, grant u org team (resp u))

/-- The revoke loop of `main`, analogous to `applyGrants`. -/
def applyRevokes (users : List String) (resp : String → MutationResponse)
    (org team : String) : List (String × List String) :=
  users.map fun u => (u, revoke u org team (resp u))

/-! Concrete data used by counterexamples and witnesses. -/

/-- Individual sponsor of the end-to-end scenario of the spec (§8). -/
def aliceSponsor : Sponsor :=
  { account := { name := "alice", image := "", url := "", org := false }
    isPrivate := false, created := "", amount := 10 }

/-- Organization sponsor of the end-to-end scenario of the spec (§8). -/
def acmeSponsor : Sponsor :=
  { account := { name := "acme", image := "", url := "", org := true }
    isPrivate := false, created := "", amount := 5 }

/-- The end-to-end scenario run: sponsors alice (individual, 10) and
acme (org, 5), privileged {zed}, orgUsers acme ↦ {bob}, threshold 4,
membership snapshot {zed, carol} (one member page, no invitations). -/
def scenarioRun : Finset String × Finset String :=
  run_target [aliceSponsor, acmeSponsor] 4 {"zed"} [("acme", ({"bob"} : Finset String))]
    [["zed", "carol"]] ∅

/-- A full member page: 100 distinct logins, so the page loop fetches a
further page. -/
def fullPage : List String := (List.range 100).map fun i => "user" ++ Nat.repr i

/-- A two-page member listing: a full first page, then a short second
page containing only "zeta". -/
def twoPagePages : List (List String) := [fullPage, ["zeta"]]

/-- An eligible individual sponsor whose handle sits on the first (not
the last) member page of `twoPagePages`. -/
def user3Sponsor : Sponsor :=
  { account := { name := "user3", image := "", url := "", org := false }
    isPrivate := false, created := "", amount := 10 }

/-- A failing mutation response carrying a provider error body. -/
def failResp : MutationResponse :=
  { status := 404, body := some { message := "Not Found", documentation_url := "docs" } }

/-- A sponsorship node flagged as a one-time payment. -/
def oneTimeNode : SponsorNode :=
  { createdAt := "2024-01-01T00:00:00Z", isOneTimePayment := true, privacyLevel := "PUBLIC"
    login := "otto", avatarUrl := "", url := "", typename := "User"
    monthlyPriceInDollars := 50 }

/-! Helper lemmas shared by several proofs. -/

/-- Folding union over a list of orgs is the initial set unioned with
the indexed union over the list, whatever the list order. -/
lemma foldl_union_eq (f : String → Finset String) (l : List String) (init : Finset String) :
    l.foldl (fun acc o => acc ∪ f o) init = init ∪ l.toFinset.biUnion f := by
  induction l generalizing init with
  | nil => simp
  | cons a t ih => simp [List.foldl_cons, ih, Finset.union_assoc]

/-- The privileged set is contained in every computed eligibility set. -/
lemma privileged_subset_eligibility (sponsors : List Sponsor) (minAmount : Nat)
    (privileged : Finset String) (orgUsers : List (String × Finset String)) :
    privileged ⊆ computeEligibility sponsors minAmount privileged orgUsers := by
  intro u hu
  unfold computeEligibility
  rw [foldl_union_eq]
  simp [hu]

/-- The total amount splits into the private and non-private parts. -/
lemma sum_split_private (l : List Sponsor) :
    (l.map Sponsor.amount).sum =
      ((l.filter fun s => s.isPrivate).map Sponsor.amount).sum +
        ((l.filter fun s => !s.isPrivate).map Sponsor.amount).sum := by
  induction l with
  | nil => rfl
  | cons s t ih => cases hp : s.isPrivate <;> simp [List.filter_cons, hp, ih] <;> omega

/-- The sponsor count splits into the private and non-private parts. -/
lemma length_split_private (l : List Sponsor) :
    l.length =
      (l.filter fun s => s.isPrivate).length + (l.filter fun s => !s.isPrivate).length := by
  induction l with
  | nil => rfl
  | cons s t ih => cases hp : s.isPrivate <;> simp [List.filter_cons, hp, ih] <;> omega

/-! Claim theorems. -/

set_option maxRecDepth 4000 in
/-- C1: `get_members` is claimed to return the union of the member
handles of all pages fetched.  The code instead returns only the logins
of the LAST response (`insiders.py` line 149 discards the `members`
accumulator): on a two-page listing, the handle "user3" from page 1 is
in the accumulated union but absent from the returned set. -/
theorem get_members_returns_last_page_only :
    "user3" ∈ members_accum twoPagePages ∧ "user3" ∉ get_members twoPagePages := by
  decide

/-- C2: on the end-to-end scenario the claimed call sets are
toGrant = {alice, acme, bob}, toRevoke = {carol}; the code never grants
the org handle "acme" itself (eligibility contains only user handles),
so the claimed conjunction is false. -/
theorem scenario_claim_false :
    ¬ (scenarioRun.2 = ({"alice", "acme", "bob"} : Finset String) ∧
        scenarioRun.1 = ({"carol"} : Finset String)) := by
  decide

/-- C2 (amended): the scenario issues grant calls for exactly
{alice, bob} and revoke calls for exactly {carol}. -/
theorem scenario_reconciliation :
    scenarioRun.2 = ({"alice", "bob"} : Finset String) ∧
      scenarioRun.1 = ({"carol"} : Finset String) := by
  decide

/-- C3: the eligibility set is exactly the union of the eligible
individual handles, the privileged handles, and the indexed union of
the expansion sets of the eligible org handles — an order-free set
expression, so the fold order of the source loop is irrelevant. -/
theorem eligibility_is_union (sponsors : List Sponsor) (minAmount : Nat)
    (privileged : Finset String) (orgUsers : List (String × Finset String)) :
    computeEligibility sponsors minAmount privileged orgUsers =
      eligibleUserNames sponsors minAmount ∪ privileged ∪
        (eligibleOrgNames sponsors minAmount).toFinset.biUnion (orgGet orgUsers) := by
  unfold computeEligibility
  rw [foldl_union_eq]

set_option maxRecDepth 4000 in
/-- C4: a handle appearing in the confirmed-member listing is claimed
never to be passed to a grant call.  Because `get_members` drops all
but the last page, the confirmed member "user3" (page 1 of
`twoPagePages`), being eligible, IS passed to a grant call. -/
theorem member_regranted_despite_membership :
    "user3" ∈ members_accum twoPagePages ∧
      "user3" ∈ (run_target [user3Sponsor] 4 ∅ [] twoPagePages ∅).2 := by
  decide

/-- C5: the apply loops attempt every handle whatever the per-handle
responses are (failures are local), and a failed call with a response
body prints the diagnostic with the provider message and documentation
link; `grant` and `revoke` are total, so no failure escalates. -/
theorem mutation_failures_isolated (grantUsers revokeUsers : List String)
    (resp : String → MutationResponse) (org team u : String) (b : ResponseBody)
    (hfail : is_success (resp u).status = false) (hbody : (resp u).body = some b) :
    (applyGrants grantUsers resp org team).map Prod.fst = grantUsers ∧
    (applyRevokes revokeUsers resp org team).map Prod.fst = revokeUsers ∧
    grant u org team (resp u) =
      ["Could not add @" ++ u ++ " to " ++ org ++ "/" ++ team ++ " team",
        b.message ++ " See " ++ b.documentation_url] ∧
    revoke u org team (resp u) =
      ["Could not remove @" ++ u ++ " from " ++ org ++ "/" ++ team ++ " team",
        b.message ++ " See " ++ b.documentation_url] := by
  refine ⟨?_, ?_, ?_, ?_⟩ <;>
    simp [applyGrants, applyRevokes, grant, revoke, hfail, hbody, Function.comp_def]

/-- C5 witness: both failing grant and revoke calls on concrete data,
with the loop attempting every handle. -/
theorem mutation_failures_isolated_witness :
    (applyGrants ["a", "b"] (fun _ => failResp) "o" "t").map Prod.fst = ["a", "b"] ∧
    (applyRevokes ["c"] (fun _ => failResp) "o" "t").map Prod.fst = ["c"] ∧
    grant "a" "o" "t" failResp =
      ["Could not add @" ++ "a" ++ " to " ++ "o" ++ "/" ++ "t" ++ " team",
        "Not Found" ++ " See " ++ "docs"] ∧
    revoke "a" "o" "t" failResp =
      ["Could not remove @" ++ "a" ++ " from " ++ "o" ++ "/" ++ "t" ++ " team",
        "Not Found" ++ " See " ++ "docs"] :=
  mutation_failures_isolated ["a", "b"] ["c"] (fun _ => failResp) "o" "t" "a"
    { message := "Not Found", documentation_url := "docs" } (by decide) rfl

/-- C6: the claimed iff (direct eligibility ↔ amount ≥ threshold) fails
for an organization sponsor: `acmeSponsor` meets the threshold (5 ≥ 4)
but its handle is never in the direct (individual) part of the
eligibility set. -/
theorem direct_eligibility_iff_fails :
    ¬ (("acme" ∈ eligibleUserNames [acmeSponsor] 4) ↔ 4 ≤ acmeSponsor.amount) := by
  decide

/-- C6 (amended): a handle is in the direct-sponsorship part of the
eligibility set iff some non-organization sponsor record with that
handle meets the threshold; in particular a handle none of whose
records meets the threshold is not directly eligible. -/
theorem direct_eligibility_iff (sponsors : List Sponsor) (minAmount : Nat) (u : String) :
    u ∈ eligibleUserNames sponsors minAmount ↔
      ∃ s, s ∈ sponsors ∧ s.account.org = false ∧ minAmount ≤ s.amount ∧
        s.account.name = u := by
  simp only [eligibleUserNames, List.mem_toFinset, List.mem_map, List.mem_filter,
    Bool.and_eq_true, Bool.not_eq_true', decide_eq_true_eq]
  constructor
  · rintro ⟨s, ⟨hs, horg, hamt⟩, hname⟩
    exact ⟨s, hs, horg, hamt, hname⟩
  · rintro ⟨s, hs, horg, hamt, hname⟩
    exact ⟨s, ⟨hs, horg, hamt⟩, hname⟩

/-- C7: when the membership snapshot (confirmed members united with
invitees) already equals the computed eligibility set, the run issues
no revoke and no grant calls. -/
theorem reconcile_idempotent (sponsors : List Sponsor) (minAmount : Nat)
    (privileged : Finset String) (orgUsers : List (String × Finset String))
    (memberPages : List (List String)) (invited : Finset String)
    (hsnap : get_members memberPages ∪ invited =
      computeEligibility sponsors minAmount privileged orgUsers) :
    run_target sponsors minAmount privileged orgUsers memberPages invited = (∅, ∅) := by
  unfold run_target
  rw [hsnap]
  refine Prod.ext ?_ ?_
  · simp [revokeCalls, Finset.filter_eq_empty_iff]
  · simp [grantCalls, Finset.filter_eq_empty_iff]

/-- C7 witness: a second run over the snapshot {alice}, which equals
the eligibility set of the single sponsor alice, issues no calls. -/
theorem reconcile_idempotent_witness :
    (get_members [["alice"]] ∪ (∅ : Finset String) =
        computeEligibility [aliceSponsor] 4 ∅ []) ∧
      run_target [aliceSponsor] 4 ∅ [] [["alice"]] ∅ = (∅, ∅) :=
  ⟨by decide, reconcile_idempotent [aliceSponsor] 4 ∅ [] [["alice"]] ∅ (by decide)⟩

/-- C8: a node flagged as a one-time payment contributes to none of the
outputs: eligibility set, roster, total amount and sponsor count are
unchanged when the node is removed from the fetched node stream. -/
theorem one_time_excluded (pre post : List SponsorNode) (n : SponsorNode)
    (minAmount : Nat) (privileged : Finset String)
    (orgUsers : List (String × Finset String)) (h1 : n.isOneTimePayment = true) :
    computeEligibility (sponsors_of (pre ++ n :: post)) minAmount privileged orgUsers =
      computeEligibility (sponsors_of (pre ++ post)) minAmount privileged orgUsers ∧
    roster (sponsors_of (pre ++ n :: post)) = roster (sponsors_of (pre ++ post)) ∧
    totalAmount (sponsors_of (pre ++ n :: post)) = totalAmount (sponsors_of (pre ++ post)) ∧
    sponsorCount (sponsors_of (pre ++ n :: post)) =
      sponsorCount (sponsors_of (pre ++ post)) := by
  have key : sponsors_of (pre ++ n :: post) = sponsors_of (pre ++ post) := by
    simp [sponsors_of, List.filterMap_append, processNode, h1]
  rw [key]
  exact ⟨rfl, rfl, rfl, rfl⟩

/-- C8 witness: inserting the concrete one-time node changes none of
the outputs. -/
theorem one_time_excluded_witness :
    oneTimeNode.isOneTimePayment = true ∧
      computeEligibility (sponsors_of ([] ++ oneTimeNode :: [])) 4 ∅ [] =
        computeEligibility (sponsors_of ([] ++ [])) 4 ∅ [] :=
  ⟨rfl, (one_time_excluded [] [] oneTimeNode 4 ∅ [] rfl).1⟩

/-- C9: the public roster holds exactly the accounts of the non-private
sponsors, while the total amount and the sponsor count take every
sponsor into account, private or not (each splits into the private part
plus the non-private part). -/
theorem privacy_filtering (sponsors : List Sponsor) :
    (∀ a : Account,
        a ∈ roster sponsors ↔ ∃ s, s ∈ sponsors ∧ s.isPrivate = false ∧ s.account = a) ∧
    totalAmount sponsors =
      ((sponsors.filter fun s => s.isPrivate).map Sponsor.amount).sum +
        ((sponsors.filter fun s => !s.isPrivate).map Sponsor.amount).sum ∧
    sponsorCount sponsors =
      (sponsors.filter fun s => s.isPrivate).length +
        (sponsors.filter fun s => !s.isPrivate).length := by
  refine ⟨?_, sum_split_private sponsors, length_split_private sponsors⟩
  intro a
  simp only [roster, List.mem_map, List.mem_filter, Bool.not_eq_true']
  constructor
  · rintro ⟨s, ⟨hs, hp⟩, ha⟩
    exact ⟨s, hs, hp, ha⟩
  · rintro ⟨s, hs, hp, ha⟩
    exact ⟨s, ⟨hs, hp⟩, ha⟩

/-- C10: a privileged handle is never passed to a revoke call, for any
membership snapshot: privileged handles are always in the eligibility
set and revoke is only invoked outside it. -/
theorem privileged_never_revoked (sponsors : List Sponsor) (minAmount : Nat)
    (privileged : Finset String) (orgUsers : List (String × Finset String))
    (members : Finset String) (u : String) (hu : u ∈ privileged) :
    u ∉ revokeCalls members (computeEligibility sponsors minAmount privileged orgUsers) := by
  intro hmem
  have h1 : u ∈ computeEligibility sponsors minAmount privileged orgUsers :=
    privileged_subset_eligibility sponsors minAmount privileged orgUsers hu
  rw [revokeCalls, Finset.mem_filter] at hmem
  exact hmem.2 h1

/-- C10 witness: the privileged handle "me", though a current member,
is not in the revoke-call set. -/
theorem privileged_never_revoked_witness :
    ("me" ∈ ({"me"} : Finset String)) ∧
      "me" ∉ revokeCalls {"me", "x"} (computeEligibility [] 4 {"me"} []) :=
  ⟨by decide, privileged_never_revoked [] 4 {"me"} [] {"me", "x"} "me" (by decide)⟩

end Insiders
